import Mathlib

/-
Verification of the security-tracker cluster of the pier-reposteria backend:
the login-attempt lockout tracker, the password-reset rate limiter, the
general per-IP rate limiter, the CSRF token store, the JWT token blacklist
and the authentication middleware that consults it.

Each tracker is a JS class holding a Map from a string key to a small record;
we embed the Maps as functions from String to Option of the record type and
each method as a pure function that returns its result value together with
the (possibly updated) map.  Timestamps are Date.now() values, embedded as
natural numbers of milliseconds; all the arithmetic the source performs on
them is exact integer arithmetic, so Nat is a faithful carrier.
-/

namespace PierBackend

/-- Math.ceil(ms / 1000 / 60): milliseconds to whole minutes, rounded up.
    For natural ms this is ceiling division by 60000. -/
def ceilMinutes (ms : Nat) : Nat := (ms + 59999) / 60000

/-! ## middleware/rateLimiting.js : LoginAttemptTracker -/

/-- Entry of LoginAttemptTracker.attempts: email -> \x7b count, firstAttempt, lockedUntil \x7d. -/
structure LoginRecord where
  count : Nat
  firstAttempt : Nat
  lockedUntil : Option Nat
deriving Repr, DecidableEq

/-- The attempts Map of LoginAttemptTracker. -/
abbrev LoginMap := String → Option LoginRecord

/-- Return value of recordFailedAttempt. -/
structure AttemptResult where
  isLocked : Bool
  attemptsLeft : Nat
  lockedUntil : Option Nat
deriving Repr, DecidableEq

/-- Return value of isLocked: the bare `false` returns of the source carry
    no remainingTime field, embedded as remainingTime := none. -/
structure LockStatus where
  locked : Bool
  remainingTime : Option Nat
deriving Repr, DecidableEq

/-- LoginAttemptTracker.recordFailedAttempt(email).
    Resets the record when more than 15 minutes passed since firstAttempt,
    otherwise increments; locks for 15 minutes once count reaches 5.
    attemptsLeft is Math.max(0, 5 - count), which is exactly truncated
    Nat subtraction. -/
def LoginAttemptTracker.recordFailedAttempt (m : LoginMap) (email : String) (now : Nat) :
    AttemptResult × LoginMap :=
  let record0 := (m email).getD { count := 0, firstAttempt := now, lockedUntil := none }
  let record1 :=
    if 15 * 60 * 1000 < now - record0.firstAttempt then
      { count := 1, firstAttempt := now, lockedUntil := none }
    else
      { record0 with count := record0.count + 1 }
  let record2 :=
    if 5 ≤ record1.count then
      { record1 with lockedUntil := some (now + 15 * 60 * 1000) }
    else record1
  ({ isLocked := record2.lockedUntil.any (fun u => decide (now < u)),
     attemptsLeft := 5 - record2.count,
     lockedUntil := record2.lockedUntil },
   fun e => if e = email then some record2 else m e)

/-- LoginAttemptTracker.isLocked(email).  The source tests
    `!record.lockedUntil`, which is true for null and also for the
    numeric value 0, so a lockedUntil of 0 short-circuits to not-locked
    without deleting the record (unreachable through the tracker's own
    updates, which always store now + 15 minutes). -/
def LoginAttemptTracker.isLocked (m : LoginMap) (email : String) (now : Nat) :
    LockStatus × LoginMap :=
  match m email with
  | none => ({ locked := false, remainingTime := none }, m)
  | some record =>
    match record.lockedUntil with
    | none => ({ locked := false, remainingTime := none }, m)
    | some u =>
      if u = 0 then ({ locked := false, remainingTime := none }, m)
      else if now < u then
        ({ locked := true, remainingTime := some (ceilMinutes (u - now)) }, m)
      else
        ({ locked := false, remainingTime := none }, fun e => if e = email then none else m e)

/-- LoginAttemptTracker.clearAttempts(email): delete the record. -/
def LoginAttemptTracker.clearAttempts (m : LoginMap) (email : String) : LoginMap :=
  fun e => if e = email then none else m e

/-- Fold recordFailedAttempt over a list of call times, keeping the map. -/
def LoginAttemptTracker.runFailures (email : String) : LoginMap → List Nat → LoginMap
  | m, [] => m
  | m, t :: ts =>
    LoginAttemptTracker.runFailures email (LoginAttemptTracker.recordFailedAttempt m email t).2 ts

/-- Outcome of an Express middleware: pass to next handler, or answer 429. -/
inductive MiddlewareOutcome where
  | next
  | reject (remainingTime : Option Nat)
deriving Repr, DecidableEq

/-- loginRateLimitMiddleware: skip when no email in the body, otherwise
    reject with 429 when the tracker reports the account locked. -/
def loginRateLimitMiddleware (m : LoginMap) (email : Option String) (now : Nat) :
    MiddlewareOutcome × LoginMap :=
  match email with
  | none => (.next, m)
  | some e =>
    let st := LoginAttemptTracker.isLocked m e now
    if st.1.locked then (.reject st.1.remainingTime, st.2) else (.next, st.2)

/-! ## middleware/rateLimiting.js : PasswordResetTracker -/

/-- Entry of PasswordResetTracker.requests: email -> \x7b count, windowStart \x7d. -/
structure ResetRecord where
  count : Nat
  windowStart : Nat
deriving Repr, DecidableEq

abbrev ResetMap := String → Option ResetRecord

/-- Return value of PasswordResetTracker.canRequest; the two branches of the
    source return different field sets, embedded as Option fields. -/
structure ResetResult where
  allowed : Bool
  attemptsLeft : Option Nat
  remainingTime : Option Nat
deriving Repr, DecidableEq

/-- PasswordResetTracker.canRequest(email): fixed one-hour window, limit 3.
    The denied branch of the source returns without calling set(); it is
    reached only when no reset happened (a reset leaves count = 0 < 3), and
    nothing was mutated on that path, so the map is returned unchanged. -/
def PasswordResetTracker.canRequest (m : ResetMap) (email : String) (now : Nat) :
    ResetResult × ResetMap :=
  let record0 := (m email).getD { count := 0, windowStart := now }
  let record1 :=
    if 60 * 60 * 1000 < now - record0.windowStart then { count := 0, windowStart := now }
    else record0
  if 3 ≤ record1.count then
    ({ allowed := false, attemptsLeft := none,
       remainingTime := some (ceilMinutes (record1.windowStart + 60 * 60 * 1000 - now)) }, m)
  else
    let record2 := { record1 with count := record1.count + 1 }
    ({ allowed := true, attemptsLeft := some (3 - record2.count), remainingTime := none },
     fun e => if e = email then some record2 else m e)

/-- Fold canRequest over a list of call times, collecting the results. -/
def PasswordResetTracker.run (email : String) : ResetMap → List Nat → List ResetResult × ResetMap
  | m, [] => ([], m)
  | m, t :: ts =>
    let step := PasswordResetTracker.canRequest m email t
    let rest := PasswordResetTracker.run email step.2 ts
    (step.1 :: rest.1, rest.2)

/-! ## middleware/rateLimiting.js : GeneralRateLimiter -/

/-- Entry of GeneralRateLimiter.requests: IP -> \x7b count, windowStart \x7d. -/
structure RateRecord where
  count : Nat
  windowStart : Nat
deriving Repr, DecidableEq

abbrev RateMap := String → Option RateRecord

/-- Return value of GeneralRateLimiter.canRequest; branch-specific fields
    are Options. -/
structure RateResult where
  allowed : Bool
  remainingTime : Option Nat
  limit : Option Nat
  remaining : Option Nat
deriving Repr, DecidableEq

/-- GeneralRateLimiter.canRequest(ip), parameterized by the constructor
    arguments maxRequests and windowMs.  The source mutates the fetched
    record object in place when the window expired, so when a record
    existed the (possibly reset) record is visible in the Map on the denied
    path even though set() is not called there; when no record existed the
    denied path leaves the Map untouched. -/
def GeneralRateLimiter.canRequest (maxRequests windowMs : Nat) (m : RateMap) (ip : String)
    (now : Nat) : RateResult × RateMap :=
  let stored := m ip
  let record0 := stored.getD { count := 0, windowStart := now }
  let record1 :=
    if windowMs < now - record0.windowStart then { count := 0, windowStart := now }
    else record0
  if maxRequests ≤ record1.count then
    ({ allowed := false,
       remainingTime := some (ceilMinutes (record1.windowStart + windowMs - now)),
       limit := some maxRequests, remaining := none },
     if stored.isSome then fun a => if a = ip then some record1 else m a else m)
  else
    let record2 := { record1 with count := record1.count + 1 }
    ({ allowed := true, remainingTime := none, limit := none,
       remaining := some (maxRequests - record2.count) },
     fun a => if a = ip then some record2 else m a)

/-- Fold canRequest over a list of call times, collecting the results. -/
def GeneralRateLimiter.run (maxRequests windowMs : Nat) (ip : String) :
    RateMap → List Nat → List RateResult × RateMap
  | m, [] => ([], m)
  | m, t :: ts =>
    let step := GeneralRateLimiter.canRequest maxRequests windowMs m ip t
    let rest := GeneralRateLimiter.run maxRequests windowMs ip step.2 ts
    (step.1 :: rest.1, rest.2)

/-! ## middleware/securityHeaders.js : CSRFProtection -/

/-- Entry of CSRFProtection.tokens: sessionId -> \x7b token, createdAt \x7d. -/
structure CSRFRecord where
  token : String
  createdAt : Nat
deriving Repr, DecidableEq

abbrev CSRFMap := String → Option CSRFRecord

/-- CSRFProtection.generateToken(sessionId).  The random token produced by
    crypto.randomBytes(32).toString is modelled as the input `token`;
    the store keyed by sessionId is overwritten with it. -/
def CSRFProtection.generateToken (m : CSRFMap) (sessionId token : String) (now : Nat) :
    String × CSRFMap :=
  (token, fun s => if s = sessionId then some { token := token, createdAt := now } else m s)

/-- CSRFProtection.verifyToken(sessionId, token): false when no record,
    false and delete when older than one hour, otherwise string equality
    with the stored token. -/
def CSRFProtection.verifyToken (m : CSRFMap) (sessionId token : String) (now : Nat) :
    Bool × CSRFMap :=
  match m sessionId with
  | none => (false, m)
  | some record =>
    if 60 * 60 * 1000 < now - record.createdAt then
      (false, fun s => if s = sessionId then none else m s)
    else
      (record.token == token, m)

/-! ## middleware/tokenBlacklist.js : TokenBlacklist -/

/-- blacklistedTokens: token string -> expirationTime. -/
abbrev BlacklistMap := String → Option Nat

/-- TokenBlacklist.add(token, expiresAt). -/
def TokenBlacklist.add (m : BlacklistMap) (token : String) (expiresAt : Nat) : BlacklistMap :=
  fun t => if t = token then some expiresAt else m t

/-- TokenBlacklist.isBlacklisted(token).  The source tests `!expiresAt`,
    which is true when the Map has no entry and also when the stored
    expirationTime is the numeric value 0; in the latter case it returns
    false without purging.  An unexpired entry yields true; an expired one
    is deleted and yields false. -/
def TokenBlacklist.isBlacklisted (m : BlacklistMap) (token : String) (now : Nat) :
    Bool × BlacklistMap :=
  match m token with
  | none => (false, m)
  | some expiresAt =>
    if expiresAt = 0 then (false, m)
    else if expiresAt < now then (false, fun t => if t = token then none else m t)
    else (true, m)

/-! ## middleware/auth.js : verifyToken -/

/-- Outcome of jwt.verify(token, JWT_SECRET) as discriminated by the catch
    block of the source: success with decoded claims, JsonWebTokenError
    (bad signature / malformed), TokenExpiredError, or any other error. -/
inductive JwtOutcome where
  | ok (claims : String)
  | jsonWebTokenError
  | tokenExpiredError
  | otherError
deriving Repr, DecidableEq

/-- The response produced by the verifyToken middleware. -/
inductive AuthResult where
  | noToken
  | blacklisted
  | invalidToken
  | expiredToken
  | serverError
  | authorized (claims : String)
deriving Repr, DecidableEq

/-- JS String.prototype.split(' ') on the character list: cut at every
    single space, keeping empty pieces, exactly as the source's
    authHeader.split(' ') does. -/
def Auth.splitOnSpace : List Char → List Char → List String
  | acc, [] => [String.mk acc.reverse]
  | acc, c :: cs =>
    if c = ' ' then String.mk acc.reverse :: Auth.splitOnSpace [] cs
    else Auth.splitOnSpace (c :: acc) cs

/-- authHeader.split(' ')[1]: the token part of a Bearer header. -/
def Auth.tokenOf (h : String) : String := (Auth.splitOnSpace [] h.toList).getD 1 ("")

/-- authHeader.startsWith of the Bearer prefix, on the character list. -/
def Auth.headerIsBearer (h : String) : Bool :=
  List.isPrefixOf ("Bearer ").toList h.toList

/-- middleware/auth.js verifyToken: 401 when no Bearer header; then the
    blacklist is consulted, and only afterwards is the signature verified
    (the jwt.verify call is modelled by the function argument, since the
    cryptography is an external collaborator). -/
def Auth.verifyToken (bl : BlacklistMap) (now : Nat) (authHeader : Option String)
    (jwtVerify : String → JwtOutcome) : AuthResult × BlacklistMap :=
  match authHeader with
  | none => (.noToken, bl)
  | some h =>
    if Auth.headerIsBearer h then
      let token := Auth.tokenOf h
      let bres := TokenBlacklist.isBlacklisted bl token now
      if bres.1 then (.blacklisted, bres.2)
      else
        match jwtVerify token with
        | .ok claims => (.authorized claims, bres.2)
        | .jsonWebTokenError => (.invalidToken, bres.2)
        | .tokenExpiredError => (.expiredToken, bres.2)
        | .otherError => (.serverError, bres.2)
    else (.noToken, bl)

/-! ## Step lemmas for LoginAttemptTracker -/

/-- A failed attempt for an email with no record creates a fresh record with
    count 1 and no lock. -/
theorem recordFailedAttempt_fresh (m : LoginMap) (email : String) (now : Nat)
    (h : m email = none) :
    LoginAttemptTracker.recordFailedAttempt m email now =
      ({ isLocked := false, attemptsLeft := 4, lockedUntil := none },
       fun e => if e = email then
         some { count := 1, firstAttempt := now, lockedUntil := none } else m e) := by
  simp [LoginAttemptTracker.recordFailedAttempt, h]

/-- A failed attempt within the 15-minute window on an unlocked record with
    count + 1 still below the threshold just increments the count. -/
theorem recordFailedAttempt_step (m : LoginMap) (email : String) (now c fa : Nat)
    (h : m email = some { count := c, firstAttempt := fa, lockedUntil := none })
    (hw : now ≤ fa + 15 * 60 * 1000) (hc : c + 1 < 5) :
    LoginAttemptTracker.recordFailedAttempt m email now =
      ({ isLocked := false, attemptsLeft := 5 - (c + 1), lockedUntil := none },
       fun e => if e = email then
         some { count := c + 1, firstAttempt := fa, lockedUntil := none } else m e) := by
  have h1 : ¬ (15 * 60 * 1000 < now - fa) := by omega
  have h2 : ¬ (5 ≤ c + 1) := by omega
  simp [LoginAttemptTracker.recordFailedAttempt, h, h1, h2]

/-- A failed attempt within the 15-minute window on a record with count at
    least 4 sets the lock to now + 15 minutes, whatever the prior lock. -/
theorem recordFailedAttempt_lock (m : LoginMap) (email : String) (now c fa : Nat)
    (lu : Option Nat)
    (h : m email = some { count := c, firstAttempt := fa, lockedUntil := lu })
    (hw : now ≤ fa + 15 * 60 * 1000) (hc : 4 ≤ c) :
    LoginAttemptTracker.recordFailedAttempt m email now =
      ({ isLocked := true, attemptsLeft := 5 - (c + 1),
         lockedUntil := some (now + 15 * 60 * 1000) },
       fun e => if e = email then
         some { count := c + 1, firstAttempt := fa,
                lockedUntil := some (now + 15 * 60 * 1000) } else m e) := by
  have h1 : ¬ (15 * 60 * 1000 < now - fa) := by omega
  have h2 : 5 ≤ c + 1 := by omega
  simp [LoginAttemptTracker.recordFailedAttempt, h, h1, h2]

/-- A record whose lock, if any, is at least 15 minutes — the shape of every
    lock the tracker itself ever stores. -/
def lockValidRecord (r : LoginRecord) : Prop :=
  r.lockedUntil = none ∨ ∃ u, r.lockedUntil = some u ∧ 15 * 60 * 1000 ≤ u

/-- All records of the map have valid locks. -/
def lockValidMap (m : LoginMap) : Prop :=
  ∀ e r, m e = some r → lockValidRecord r

/-- recordFailedAttempt preserves lock validity: every lock it writes is
    now + 15 minutes, and otherwise it inherits or clears the old field.
    So a stored lockedUntil is never the JS-falsy value 0. -/
theorem recordFailedAttempt_preserves_lockValid (m : LoginMap) (email : String) (now : Nat)
    (hm : lockValidMap m) :
    lockValidMap ((LoginAttemptTracker.recordFailedAttempt m email now).2) := by
  intro e r h
  simp only [LoginAttemptTracker.recordFailedAttempt] at h
  by_cases he : e = email
  · simp only [he, eq_self_iff_true, if_true, Option.some.injEq] at h
    subst h
    unfold lockValidRecord
    rcases hr0 : m email with _ | r0 <;>
      simp only [hr0, Option.getD_none, Option.getD_some]
    · split_ifs <;> simp
    · have hgood := hm email r0 hr0
      unfold lockValidRecord at hgood
      split_ifs <;> simp_all
  · simp only [if_neg he] at h
    exact hm e r h

/-- isLocked on a record with an active (positive, future) lock. -/
theorem isLocked_active (m : LoginMap) (email : String) (now : Nat) (r : LoginRecord)
    (u : Nat) (h : m email = some r) (hu : r.lockedUntil = some u) (hnow : now < u) :
    LoginAttemptTracker.isLocked m email now =
      ({ locked := true, remainingTime := some (ceilMinutes (u - now)) }, m) := by
  have h0 : u ≠ 0 := by omega
  simp [LoginAttemptTracker.isLocked, h, hu, h0, hnow]

/-- isLocked on a record whose positive lock has passed: deletes the record. -/
theorem isLocked_expired (m : LoginMap) (email : String) (now : Nat) (r : LoginRecord)
    (u : Nat) (h : m email = some r) (hu : r.lockedUntil = some u) (h0 : 0 < u)
    (hnow : u ≤ now) :
    LoginAttemptTracker.isLocked m email now =
      ({ locked := false, remainingTime := none }, fun e => if e = email then none else m e) := by
  have h0' : u ≠ 0 := by omega
  have hnow' : ¬ now < u := by omega
  simp [LoginAttemptTracker.isLocked, h, hu, h0', hnow']

/-- ceilMinutes is at least one on a positive duration, and monotone bounds
    give at most 15 on a duration of at most 15 minutes. -/
theorem ceilMinutes_pos_le_15 (ms : Nat) (h1 : 0 < ms) (h2 : ms ≤ 15 * 60 * 1000) :
    1 ≤ ceilMinutes ms ∧ ceilMinutes ms ≤ 15 := by
  unfold ceilMinutes
  constructor
  · have : 60000 ≤ ms + 59999 := by omega
    calc 1 = 60000 / 60000 := by norm_num
    _ ≤ (ms + 59999) / 60000 := Nat.div_le_div_right this
  · have : ms + 59999 ≤ 959999 := by omega
    calc (ms + 59999) / 60000 ≤ 959999 / 60000 := Nat.div_le_div_right this
    _ = 15 := by norm_num

/-- C1.  After exactly five failed attempts, each within 15 minutes of the
    first (which fixes the record's firstAttempt), a subsequent isLocked
    call made before the lock t5 + 15min expires reports locked with a
    remaining time of between 1 and 15 minutes, the login middleware
    rejects the request, and the lock verdict is independent of the
    record's count. -/
theorem login_lockout_after_five_attempts (email : String) (m : LoginMap)
    (t₁ t₂ t₃ t₄ t₅ t : Nat) (h0 : m email = none)
    (hw2 : t₂ ≤ t₁ + 15 * 60 * 1000) (hw3 : t₃ ≤ t₁ + 15 * 60 * 1000)
    (hw4 : t₄ ≤ t₁ + 15 * 60 * 1000) (hw5 : t₅ ≤ t₁ + 15 * 60 * 1000)
    (h5t : t₅ ≤ t) (hbefore : t < t₅ + 15 * 60 * 1000) :
    (LoginAttemptTracker.isLocked
        (LoginAttemptTracker.runFailures email m [t₁, t₂, t₃, t₄, t₅]) email t).1 =
      { locked := true, remainingTime := some (ceilMinutes (t₅ + 15 * 60 * 1000 - t)) } ∧
    1 ≤ ceilMinutes (t₅ + 15 * 60 * 1000 - t) ∧
    ceilMinutes (t₅ + 15 * 60 * 1000 - t) ≤ 15 ∧
    (loginRateLimitMiddleware
        (LoginAttemptTracker.runFailures email m [t₁, t₂, t₃, t₄, t₅]) (some email) t).1 =
      MiddlewareOutcome.reject (some (ceilMinutes (t₅ + 15 * 60 * 1000 - t))) ∧
    (∀ c fa, (LoginAttemptTracker.isLocked
        (fun e => if e = email then
          some ⟨c, fa, some (t₅ + 15 * 60 * 1000)⟩ else m e) email t).1.locked
      = true) := by
  have step1 := recordFailedAttempt_fresh m email t₁ h0
  set m₁ := (LoginAttemptTracker.recordFailedAttempt m email t₁).2 with hm₁
  have hm₁e : m₁ email = some { count := 1, firstAttempt := t₁, lockedUntil := none } := by
    rw [hm₁, step1]; simp
  have step2 := recordFailedAttempt_step m₁ email t₂ 1 t₁ hm₁e hw2 (by omega)
  set m₂ := (LoginAttemptTracker.recordFailedAttempt m₁ email t₂).2 with hm₂
  have hm₂e : m₂ email = some { count := 2, firstAttempt := t₁, lockedUntil := none } := by
    rw [hm₂, step2]; simp
  have step3 := recordFailedAttempt_step m₂ email t₃ 2 t₁ hm₂e hw3 (by omega)
  set m₃ := (LoginAttemptTracker.recordFailedAttempt m₂ email t₃).2 with hm₃
  have hm₃e : m₃ email = some { count := 3, firstAttempt := t₁, lockedUntil := none } := by
    rw [hm₃, step3]; simp
  have step4 := recordFailedAttempt_step m₃ email t₄ 3 t₁ hm₃e hw4 (by omega)
  set m₄ := (LoginAttemptTracker.recordFailedAttempt m₃ email t₄).2 with hm₄
  have hm₄e : m₄ email = some { count := 4, firstAttempt := t₁, lockedUntil := none } := by
    rw [hm₄, step4]; simp
  have step5 := recordFailedAttempt_lock m₄ email t₅ 4 t₁ none hm₄e hw5 (by omega)
  set m₅ := (LoginAttemptTracker.recordFailedAttempt m₄ email t₅).2 with hm₅
  have hm₅e : m₅ email = some ⟨5, t₁, some (t₅ + 15 * 60 * 1000)⟩ := by
    rw [hm₅, step5]; simp
  have hrun : LoginAttemptTracker.runFailures email m [t₁, t₂, t₃, t₄, t₅] = m₅ := by
    simp only [LoginAttemptTracker.runFailures, hm₁, hm₂, hm₃, hm₄, hm₅]
  have hlock := isLocked_active m₅ email t _ (t₅ + 15 * 60 * 1000) hm₅e rfl hbefore
  have hbounds := ceilMinutes_pos_le_15 (t₅ + 15 * 60 * 1000 - t) (by omega) (by omega)
  refine ⟨by rw [hrun, hlock], hbounds.1, hbounds.2, ?_, ?_⟩
  · rw [hrun]
    simp [loginRateLimitMiddleware, hlock]
  · intro c fa
    have hx : (fun e => if e = email then
        some ⟨c, fa, some (t₅ + 15 * 60 * 1000)⟩ else m e) email =
        some (⟨c, fa, some (t₅ + 15 * 60 * 1000)⟩ : LoginRecord) := by simp
    rw [isLocked_active _ email t _ (t₅ + 15 * 60 * 1000) hx rfl hbefore]

/-- C1 witness: five failures at times 0..4 lock the account; a check at
    time 10 reports locked with 15 minutes remaining and is rejected. -/
theorem login_lockout_after_five_attempts_witness :
    (LoginAttemptTracker.isLocked
        (LoginAttemptTracker.runFailures ("a@b.com") (fun _ => none) [0, 1, 2, 3, 4])
        ("a@b.com") 10).1 =
      { locked := true, remainingTime := some (ceilMinutes (4 + 15 * 60 * 1000 - 10)) } ∧
    1 ≤ ceilMinutes (4 + 15 * 60 * 1000 - 10) ∧
    ceilMinutes (4 + 15 * 60 * 1000 - 10) ≤ 15 ∧
    (loginRateLimitMiddleware
        (LoginAttemptTracker.runFailures ("a@b.com") (fun _ => none) [0, 1, 2, 3, 4])
        (some ("a@b.com")) 10).1 =
      MiddlewareOutcome.reject (some (ceilMinutes (4 + 15 * 60 * 1000 - 10))) ∧
    (∀ c fa, (LoginAttemptTracker.isLocked
        (fun e => if e = ("a@b.com") then
          some ⟨c, fa, some (4 + 15 * 60 * 1000)⟩ else none) ("a@b.com") 10).1.locked
      = true) :=
  login_lockout_after_five_attempts ("a@b.com") (fun _ => none) 0 1 2 3 4 10 rfl
    (by omega) (by omega) (by omega) (by omega) (by omega) (by omega)

/-- C8.  After clearAttempts, the very next recordFailedAttempt — at any
    time, for any prior map — reports attempt number one: attemptsLeft 4,
    no lock, and a stored record with count 1 and a fresh firstAttempt. -/
theorem clear_attempts_fresh_start (m : LoginMap) (email : String) (now : Nat) :
    (LoginAttemptTracker.recordFailedAttempt
        (LoginAttemptTracker.clearAttempts m email) email now).1 =
      { isLocked := false, attemptsLeft := 4, lockedUntil := none } ∧
    (LoginAttemptTracker.recordFailedAttempt
        (LoginAttemptTracker.clearAttempts m email) email now).2 email =
      some { count := 1, firstAttempt := now, lockedUntil := none } := by
  have hnone : LoginAttemptTracker.clearAttempts m email email = none := by
    simp [LoginAttemptTracker.clearAttempts]
  rw [recordFailedAttempt_fresh _ email now hnone]
  simp

/-- C10.  On a stored record with count at least 4 whose firstAttempt is
    within the last 15 minutes, a further failed attempt sets the lock to
    now + 15 minutes; a second such attempt no earlier than the first sets
    a lock that is no earlier, so within-window failures keep extending
    the lockout. -/
theorem lockout_extension_monotone (m : LoginMap) (email : String) (c fa now : Nat)
    (lu : Option Nat) (h : m email = some { count := c, firstAttempt := fa, lockedUntil := lu })
    (hc : 4 ≤ c) (hfa : fa ≤ now) (hw : now ≤ fa + 15 * 60 * 1000) :
    (LoginAttemptTracker.recordFailedAttempt m email now).1.lockedUntil =
      some (now + 15 * 60 * 1000) ∧
    (LoginAttemptTracker.recordFailedAttempt m email now).2 email =
      some ⟨c + 1, fa, some (now + 15 * 60 * 1000)⟩ ∧
    (∀ now', now ≤ now' → now' ≤ fa + 15 * 60 * 1000 →
      (LoginAttemptTracker.recordFailedAttempt
          (LoginAttemptTracker.recordFailedAttempt m email now).2 email now').2 email =
        some ⟨c + 2, fa, some (now' + 15 * 60 * 1000)⟩ ∧
      now + 15 * 60 * 1000 ≤ now' + 15 * 60 * 1000) := by
  have step1 := recordFailedAttempt_lock m email now c fa lu h hw hc
  refine ⟨by rw [step1], by rw [step1]; simp, ?_⟩
  intro now' h1 h2
  have hmid : (LoginAttemptTracker.recordFailedAttempt m email now).2 email =
      some ⟨c + 1, fa, some (now + 15 * 60 * 1000)⟩ := by
    rw [step1]; simp
  have step2 := recordFailedAttempt_lock _ email now' (c + 1) fa
    (some (now + 15 * 60 * 1000)) hmid h2 (by omega)
  refine ⟨by rw [step2]; simp, by omega⟩

/-- C10 witness: a record at count 4 (first attempt at time 0) locked at
    time 60000 and again at time 120000, with the lock extended. -/
theorem lockout_extension_monotone_witness :
    (LoginAttemptTracker.recordFailedAttempt
        (fun e => if e = ("a@b.com") then some ⟨4, 0, none⟩ else none)
        ("a@b.com") 60000).1.lockedUntil = some (60000 + 15 * 60 * 1000) ∧
    (LoginAttemptTracker.recordFailedAttempt
        (fun e => if e = ("a@b.com") then some ⟨4, 0, none⟩ else none)
        ("a@b.com") 60000).2 ("a@b.com") =
      some ⟨4 + 1, 0, some (60000 + 15 * 60 * 1000)⟩ ∧
    (∀ now', 60000 ≤ now' → now' ≤ 0 + 15 * 60 * 1000 →
      (LoginAttemptTracker.recordFailedAttempt
          (LoginAttemptTracker.recordFailedAttempt
            (fun e => if e = ("a@b.com") then some ⟨4, 0, none⟩ else none)
            ("a@b.com") 60000).2 ("a@b.com") now').2 ("a@b.com") =
        some ⟨4 + 2, 0, some (now' + 15 * 60 * 1000)⟩ ∧
      60000 + 15 * 60 * 1000 ≤ now' + 15 * 60 * 1000) :=
  lockout_extension_monotone (fun e => if e = ("a@b.com") then some ⟨4, 0, none⟩ else none)
    ("a@b.com") 4 0 60000 none (by simp) (by omega) (by omega) (by omega)

/-- C7.  A positive lock that has passed self-heals: isLocked deletes the
    record and reports not-locked, and the next failed attempt for that
    identifier starts a fresh window as attempt number one.  The final
    conjunct shows the positivity hypothesis covers every lock the tracker
    can store: recordFailedAttempt only ever writes now + 15 minutes. -/
theorem lock_expiry_self_heal (m : LoginMap) (email : String) (now : Nat)
    (r : LoginRecord) (u : Nat) (h : m email = some r) (hu : r.lockedUntil = some u)
    (hpos : 0 < u) (hpassed : u ≤ now) :
    (LoginAttemptTracker.isLocked m email now).1 =
      { locked := false, remainingTime := none } ∧
    (LoginAttemptTracker.isLocked m email now).2 email = none ∧
    (∀ t', (LoginAttemptTracker.recordFailedAttempt
        (LoginAttemptTracker.isLocked m email now).2 email t').1 =
      { isLocked := false, attemptsLeft := 4, lockedUntil := none } ∧
      (LoginAttemptTracker.recordFailedAttempt
        (LoginAttemptTracker.isLocked m email now).2 email t').2 email =
      some { count := 1, firstAttempt := t', lockedUntil := none }) ∧
    (∀ m₂ e₂ n₂, lockValidMap m₂ →
      lockValidMap ((LoginAttemptTracker.recordFailedAttempt m₂ e₂ n₂).2)) := by
  have hdel := isLocked_expired m email now r u h hu hpos hpassed
  have hnone : (LoginAttemptTracker.isLocked m email now).2 email = none := by
    rw [hdel]; simp
  refine ⟨by rw [hdel], hnone, ?_, ?_⟩
  · intro t'
    rw [recordFailedAttempt_fresh _ email t' hnone]
    simp
  · intro m₂ e₂ n₂ hvalid
    exact recordFailedAttempt_preserves_lockValid m₂ e₂ n₂ hvalid

/-- C7 witness: a record locked until time 900000, checked at 900001. -/
theorem lock_expiry_self_heal_witness :
    (LoginAttemptTracker.isLocked
        (fun e => if e = ("a@b.com") then some ⟨5, 0, some 900000⟩ else none)
        ("a@b.com") 900001).1 = { locked := false, remainingTime := none } ∧
    (LoginAttemptTracker.isLocked
        (fun e => if e = ("a@b.com") then some ⟨5, 0, some 900000⟩ else none)
        ("a@b.com") 900001).2 ("a@b.com") = none ∧
    (∀ t', (LoginAttemptTracker.recordFailedAttempt
        (LoginAttemptTracker.isLocked
          (fun e => if e = ("a@b.com") then some ⟨5, 0, some 900000⟩ else none)
          ("a@b.com") 900001).2 ("a@b.com") t').1 =
      { isLocked := false, attemptsLeft := 4, lockedUntil := none } ∧
      (LoginAttemptTracker.recordFailedAttempt
        (LoginAttemptTracker.isLocked
          (fun e => if e = ("a@b.com") then some ⟨5, 0, some 900000⟩ else none)
          ("a@b.com") 900001).2 ("a@b.com") t').2 ("a@b.com") =
      some { count := 1, firstAttempt := t', lockedUntil := none }) ∧
    (∀ m₂ e₂ n₂, lockValidMap m₂ →
      lockValidMap ((LoginAttemptTracker.recordFailedAttempt m₂ e₂ n₂).2)) :=
  lock_expiry_self_heal
    (fun e => if e = ("a@b.com") then some ⟨5, 0, some 900000⟩ else none)
    ("a@b.com") 900001 ⟨5, 0, some 900000⟩ 900000 (by simp) rfl (by omega) (by omega)

/-! ## Step lemmas for PasswordResetTracker -/

/-- A first request for an unseen email opens a window at now with count 1. -/
theorem resetTracker_fresh (m : ResetMap) (email : String) (now : Nat)
    (h : m email = none) :
    PasswordResetTracker.canRequest m email now =
      ({ allowed := true, attemptsLeft := some 2, remainingTime := none },
       fun e => if e = email then some { count := 1, windowStart := now } else m e) := by
  simp [PasswordResetTracker.canRequest, h]

/-- A within-window request under the limit increments the count. -/
theorem resetTracker_allowed (m : ResetMap) (email : String) (now c ws : Nat)
    (h : m email = some { count := c, windowStart := ws })
    (hw : now ≤ ws + 60 * 60 * 1000) (hc : c < 3) :
    PasswordResetTracker.canRequest m email now =
      ({ allowed := true, attemptsLeft := some (3 - (c + 1)), remainingTime := none },
       fun e => if e = email then some { count := c + 1, windowStart := ws } else m e) := by
  have h1 : ¬ (60 * 60 * 1000 < now - ws) := by omega
  have h2 : ¬ (3 ≤ c) := by omega
  simp [PasswordResetTracker.canRequest, h, h1, h2]

/-- A within-window request at the limit is denied and leaves the map as is. -/
theorem resetTracker_denied (m : ResetMap) (email : String) (now c ws : Nat)
    (h : m email = some { count := c, windowStart := ws })
    (hw : now ≤ ws + 60 * 60 * 1000) (hc : 3 ≤ c) :
    PasswordResetTracker.canRequest m email now =
      ({ allowed := false, attemptsLeft := none,
         remainingTime := some (ceilMinutes (ws + 60 * 60 * 1000 - now)) }, m) := by
  have h1 : ¬ (60 * 60 * 1000 < now - ws) := by omega
  simp [PasswordResetTracker.canRequest, h, h1, hc]

/-- An expired-window request resets the window to now with count 1. -/
theorem resetTracker_reset (m : ResetMap) (email : String) (now c ws : Nat)
    (h : m email = some { count := c, windowStart := ws })
    (hw : ws + 60 * 60 * 1000 < now) :
    PasswordResetTracker.canRequest m email now =
      ({ allowed := true, attemptsLeft := some 2, remainingTime := none },
       fun e => if e = email then some { count := 1, windowStart := now } else m e) := by
  have h1 : 60 * 60 * 1000 < now - ws := by omega
  simp [PasswordResetTracker.canRequest, h, h1]

/-- Within one fixed window the run of canRequest counts allowed calls as
    min of the number of calls and the remaining quota, and the stored
    count saturates at the limit with the window start unmoved. -/
theorem resetTracker_run_window (email : String) (t₀ : Nat) :
    ∀ (ts : List Nat) (m : ResetMap) (c : Nat),
      m email = some { count := c, windowStart := t₀ } → c ≤ 3 →
      (∀ t ∈ ts, t₀ ≤ t ∧ t ≤ t₀ + 60 * 60 * 1000) →
      ((PasswordResetTracker.run email m ts).1.countP (fun r => r.allowed)
          = min ts.length (3 - c)) ∧
      ((PasswordResetTracker.run email m ts).2 email
          = some { count := min (c + ts.length) 3, windowStart := t₀ }) := by
  intro ts
  induction ts with
  | nil =>
    intro m c hm hc _
    refine ⟨by simp [PasswordResetTracker.run], ?_⟩
    simp only [PasswordResetTracker.run, hm, List.length_nil, Option.some.injEq,
      ResetRecord.mk.injEq, eq_self_iff_true, and_true]
    omega
  | cons t ts ih =>
    intro m c hm hc hts
    have ht := hts t (by simp)
    have hts' : ∀ t' ∈ ts, t₀ ≤ t' ∧ t' ≤ t₀ + 60 * 60 * 1000 :=
      fun t' h' => hts t' (by simp [h'])
    by_cases hcm : 3 ≤ c
    · have hstep := resetTracker_denied m email t c t₀ hm ht.2 hcm
      have hrec := ih m c hm hc hts'
      constructor
      · simp only [PasswordResetTracker.run, hstep, List.countP_cons, hrec.1]
        simp only [List.length_cons]
        simp
        omega
      · simp only [PasswordResetTracker.run, hstep, hrec.2, List.length_cons,
          Option.some.injEq, ResetRecord.mk.injEq, eq_self_iff_true, and_true]
        omega
    · have hstep := resetTracker_allowed m email t c t₀ hm ht.2 (by omega)
      have hrec := ih
        (fun e => if e = email then some { count := c + 1, windowStart := t₀ } else m e)
        (c + 1) (by simp) (by omega) hts'
      constructor
      · simp only [PasswordResetTracker.run, hstep, List.countP_cons, hrec.1]
        simp only [List.length_cons]
        simp
        omega
      · simp only [PasswordResetTracker.run, hstep, hrec.2, List.length_cons,
          Option.some.injEq, ResetRecord.mk.injEq, eq_self_iff_true, and_true]
        omega

/-- C2 counterexample.  From an empty tracker, the calls at times
    0, 3600000, 3600000, 3600001, 3600001, 3600001 are all allowed — the
    last five fall inside a single rolling one-hour (indeed one-
    millisecond) window, so more than 3 requests are allowed within a
    rolling hour — and a seventh call at 7200001, which is within the
    current fixed window, is denied with remainingTime 0, not ≥ 1. -/
theorem password_reset_rolling_window_cex :
    ((PasswordResetTracker.run ("a@b.com") (fun _ => none)
        [0, 3600000, 3600000, 3600001, 3600001, 3600001, 7200001]).1.map
      (fun r => (r.allowed, r.remainingTime))) =
      [(true, none), (true, none), (true, none), (true, none), (true, none),
       (true, none), (false, some 0)] ∧
    ([3600000, 3600000, 3600001, 3600001, 3600001].all
      (fun t => decide (3600000 ≤ t) && decide (t ≤ 3600000 + 60 * 60 * 1000))) = true := by
  constructor
  · rfl
  · rfl

/-- C2 amended.  The limiter is a fixed-window counter, not a rolling one:
    within one fixed window (all calls within one hour of the window start
    fixed by the first request) at most 3 calls are allowed; a further
    call while now − windowStart ≤ 1 hour is denied, with remainingTime of
    ceil((windowStart + 1h − now) / 60000), which is at least 1 whenever
    now is strictly before windowStart + 1 hour (at the exact boundary it
    is 0).  Across a window boundary up to 6 requests can be allowed
    inside a rolling hour, as the counterexample shows. -/
theorem password_reset_fixed_window_spec :
    (∀ (email : String) (t₀ : Nat) (ts : List Nat),
      (∀ t ∈ ts, t₀ ≤ t ∧ t ≤ t₀ + 60 * 60 * 1000) →
      ((PasswordResetTracker.run email (fun _ => none) (t₀ :: ts)).1.countP
          (fun r => r.allowed) = min (ts.length + 1) 3)) ∧
    (∀ (m : ResetMap) (email : String) (c ws now : Nat),
      m email = some { count := c, windowStart := ws } → 3 ≤ c →
      ws ≤ now → now ≤ ws + 60 * 60 * 1000 →
      (PasswordResetTracker.canRequest m email now).1.allowed = false ∧
      (PasswordResetTracker.canRequest m email now).1.remainingTime =
        some (ceilMinutes (ws + 60 * 60 * 1000 - now)) ∧
      (now < ws + 60 * 60 * 1000 → 1 ≤ ceilMinutes (ws + 60 * 60 * 1000 - now))) := by
  constructor
  · intro email t₀ ts hts
    have hfresh := resetTracker_fresh (fun _ => none) email t₀ rfl
    have hrec := resetTracker_run_window email t₀ ts
      (fun e => if e = email then some { count := 1, windowStart := t₀ }
        else (fun _ => none : ResetMap) e)
      1 (by simp) (by omega) hts
    simp only [PasswordResetTracker.run, hfresh, List.countP_cons, hrec.1]
    simp
    omega
  · intro m email c ws now hm hc hws hnow
    have hstep := resetTracker_denied m email now c ws hm hnow hc
    refine ⟨by rw [hstep], by rw [hstep], ?_⟩
    intro hlt
    have h1 : 0 < ws + 60 * 60 * 1000 - now := by omega
    unfold ceilMinutes
    have : 60000 ≤ ws + 60 * 60 * 1000 - now + 59999 := by omega
    calc 1 = 60000 / 60000 := by norm_num
    _ ≤ (ws + 60 * 60 * 1000 - now + 59999) / 60000 := Nat.div_le_div_right this

/-- C2 amended witness: three requests at time 0 are all allowed; a fourth
    at time 60000 is denied with 60 minutes remaining. -/
theorem password_reset_fixed_window_witness :
    ((PasswordResetTracker.run ("a@b.com") (fun _ => none) (0 :: [0, 0])).1.countP
        (fun r => r.allowed) = min ([0, 0].length + 1) 3) ∧
    ((PasswordResetTracker.canRequest
        (fun e => if e = ("a@b.com") then some { count := 3, windowStart := 0 } else none)
        ("a@b.com") 60000).1.allowed = false ∧
     (PasswordResetTracker.canRequest
        (fun e => if e = ("a@b.com") then some { count := 3, windowStart := 0 } else none)
        ("a@b.com") 60000).1.remainingTime =
       some (ceilMinutes (0 + 60 * 60 * 1000 - 60000)) ∧
     (60000 < 0 + 60 * 60 * 1000 → 1 ≤ ceilMinutes (0 + 60 * 60 * 1000 - 60000))) :=
  ⟨password_reset_fixed_window_spec.1 ("a@b.com") 0 [0, 0] (by simp),
   password_reset_fixed_window_spec.2
     (fun e => if e = ("a@b.com") then some { count := 3, windowStart := 0 } else none)
     ("a@b.com") 3 0 60000 (by simp) (by omega) (by omega) (by omega)⟩

/-! ## Step lemmas for GeneralRateLimiter -/

/-- A first request for an unseen address opens a window at now with count 1
    (possible whenever the limit is at least 1). -/
theorem rateLimiter_fresh (maxRequests windowMs : Nat) (m : RateMap) (ip : String) (now : Nat)
    (h : m ip = none) (hmax : 1 ≤ maxRequests) :
    GeneralRateLimiter.canRequest maxRequests windowMs m ip now =
      ({ allowed := true, remainingTime := none, limit := none,
         remaining := some (maxRequests - 1) },
       fun a => if a = ip then some { count := 1, windowStart := now } else m a) := by
  have h2 : ¬ (maxRequests ≤ 0) := by omega
  simp [GeneralRateLimiter.canRequest, h, h2]

/-- A within-window request under the limit increments the count. -/
theorem rateLimiter_allowed (maxRequests windowMs : Nat) (m : RateMap) (ip : String)
    (now c ws : Nat) (h : m ip = some { count := c, windowStart := ws })
    (hw : now ≤ ws + windowMs) (hc : c < maxRequests) :
    GeneralRateLimiter.canRequest maxRequests windowMs m ip now =
      ({ allowed := true, remainingTime := none, limit := none,
         remaining := some (maxRequests - (c + 1)) },
       fun a => if a = ip then some { count := c + 1, windowStart := ws } else m a) := by
  have h1 : ¬ (windowMs < now - ws) := by omega
  have h2 : ¬ (maxRequests ≤ c) := by omega
  simp [GeneralRateLimiter.canRequest, h, h1, h2]

/-- A within-window request at the limit is denied; the stored record is
    written back unchanged, so the map is extensionally the same. -/
theorem rateLimiter_denied (maxRequests windowMs : Nat) (m : RateMap) (ip : String)
    (now c ws : Nat) (h : m ip = some { count := c, windowStart := ws })
    (hw : now ≤ ws + windowMs) (hc : maxRequests ≤ c) :
    GeneralRateLimiter.canRequest maxRequests windowMs m ip now =
      ({ allowed := false, remainingTime := some (ceilMinutes (ws + windowMs - now)),
         limit := some maxRequests, remaining := none },
       fun a => if a = ip then some { count := c, windowStart := ws } else m a) := by
  have h1 : ¬ (windowMs < now - ws) := by omega
  simp [GeneralRateLimiter.canRequest, h, h1, hc]

/-- An expired-window request resets the window to now with count 1. -/
theorem rateLimiter_reset (maxRequests windowMs : Nat) (m : RateMap) (ip : String)
    (now c ws : Nat) (h : m ip = some { count := c, windowStart := ws })
    (hw : ws + windowMs < now) (hmax : 1 ≤ maxRequests) :
    GeneralRateLimiter.canRequest maxRequests windowMs m ip now =
      ({ allowed := true, remainingTime := none, limit := none,
         remaining := some (maxRequests - 1) },
       fun a => if a = ip then some { count := 1, windowStart := now } else m a) := by
  have h1 : windowMs < now - ws := by omega
  have h2 : ¬ (maxRequests ≤ 0) := by omega
  simp [GeneralRateLimiter.canRequest, h, h1, h2]

/-- Within one fixed window the run of canRequest counts allowed calls as
    min of the number of calls and the remaining quota, and the stored
    count saturates at the limit with the window start unmoved. -/
theorem rateLimiter_run_window (maxRequests windowMs : Nat) (ip : String) (t₀ : Nat) :
    ∀ (ts : List Nat) (m : RateMap) (c : Nat),
      m ip = some { count := c, windowStart := t₀ } → c ≤ maxRequests →
      (∀ t ∈ ts, t₀ ≤ t ∧ t ≤ t₀ + windowMs) →
      ((GeneralRateLimiter.run maxRequests windowMs ip m ts).1.countP (fun r => r.allowed)
          = min ts.length (maxRequests - c)) ∧
      ((GeneralRateLimiter.run maxRequests windowMs ip m ts).2 ip
          = some { count := min (c + ts.length) maxRequests, windowStart := t₀ }) := by
  intro ts
  induction ts with
  | nil =>
    intro m c hm hc _
    refine ⟨by simp [GeneralRateLimiter.run], ?_⟩
    simp only [GeneralRateLimiter.run, hm, List.length_nil, Option.some.injEq,
      RateRecord.mk.injEq, eq_self_iff_true, and_true]
    omega
  | cons t ts ih =>
    intro m c hm hc hts
    have ht := hts t (by simp)
    have hts' : ∀ t' ∈ ts, t₀ ≤ t' ∧ t' ≤ t₀ + windowMs :=
      fun t' h' => hts t' (by simp [h'])
    by_cases hcm : maxRequests ≤ c
    · have hstep := rateLimiter_denied maxRequests windowMs m ip t c t₀ hm ht.2 hcm
      have hrec := ih
        (fun a => if a = ip then some { count := c, windowStart := t₀ } else m a)
        c (by simp) hc hts'
      constructor
      · simp only [GeneralRateLimiter.run, hstep, List.countP_cons, hrec.1]
        simp only [List.length_cons]
        simp
        omega
      · simp only [GeneralRateLimiter.run, hstep, hrec.2, List.length_cons,
          Option.some.injEq, RateRecord.mk.injEq, eq_self_iff_true, and_true]
        omega
    · have hstep := rateLimiter_allowed maxRequests windowMs m ip t c t₀ hm ht.2 (by omega)
      have hrec := ih
        (fun a => if a = ip then some { count := c + 1, windowStart := t₀ } else m a)
        (c + 1) (by simp) (by omega) hts'
      constructor
      · simp only [GeneralRateLimiter.run, hstep, List.countP_cons, hrec.1]
        simp only [List.length_cons]
        simp
        omega
      · simp only [GeneralRateLimiter.run, hstep, hrec.2, List.length_cons,
          Option.some.injEq, RateRecord.mk.injEq, eq_self_iff_true, and_true]
        omega

/-- C5.  Fixed-window behavior of the general rate limiter, for any limit
    of at least 1 and any window length: (i) from an empty map, a run of
    calls all within one window of the first allows exactly
    min (number of calls) maxRequests of them, so exactly maxRequests when
    enough calls are made; (ii) after exactly maxRequests within-window
    calls, one more within-window call is denied; (iii) once the window
    has elapsed for a stored record, the counter resets: the call is
    allowed and a run of further calls inside the fresh window again
    allows min (number of calls) maxRequests. -/
theorem general_rate_limiter_window_spec (maxRequests windowMs : Nat)
    (hmax : 1 ≤ maxRequests) :
    (∀ (ip : String) (t₀ : Nat) (ts : List Nat),
      (∀ t ∈ ts, t₀ ≤ t ∧ t ≤ t₀ + windowMs) →
      ((GeneralRateLimiter.run maxRequests windowMs ip (fun _ => none) (t₀ :: ts)).1.countP
          (fun r => r.allowed) = min (ts.length + 1) maxRequests)) ∧
    (∀ (ip : String) (t₀ : Nat) (ts : List Nat) (t' : Nat),
      (∀ t ∈ ts, t₀ ≤ t ∧ t ≤ t₀ + windowMs) →
      ts.length + 1 = maxRequests → t₀ ≤ t' → t' ≤ t₀ + windowMs →
      (GeneralRateLimiter.canRequest maxRequests windowMs
        (GeneralRateLimiter.run maxRequests windowMs ip (fun _ => none) (t₀ :: ts)).2
        ip t').1.allowed = false) ∧
    (∀ (ip : String) (m : RateMap) (c ws t' : Nat) (ts' : List Nat),
      m ip = some { count := c, windowStart := ws } → ws + windowMs < t' →
      (∀ t ∈ ts', t' ≤ t ∧ t ≤ t' + windowMs) →
      (GeneralRateLimiter.canRequest maxRequests windowMs m ip t').1.allowed = true ∧
      ((GeneralRateLimiter.run maxRequests windowMs ip m (t' :: ts')).1.countP
          (fun r => r.allowed) = min (ts'.length + 1) maxRequests)) := by
  have hhead : ∀ (ip : String) (t₀ : Nat) (ts : List Nat),
      (∀ t ∈ ts, t₀ ≤ t ∧ t ≤ t₀ + windowMs) →
      ((GeneralRateLimiter.run maxRequests windowMs ip (fun _ => none) (t₀ :: ts)).1.countP
          (fun r => r.allowed) = min (ts.length + 1) maxRequests) ∧
      ((GeneralRateLimiter.run maxRequests windowMs ip (fun _ => none) (t₀ :: ts)).2 ip
          = some { count := min (1 + ts.length) maxRequests, windowStart := t₀ }) := by
    intro ip t₀ ts hts
    have hfresh := rateLimiter_fresh maxRequests windowMs (fun _ => none) ip t₀ rfl hmax
    have hrec := rateLimiter_run_window maxRequests windowMs ip t₀ ts
      (fun a => if a = ip then some { count := 1, windowStart := t₀ }
        else (fun _ => none : RateMap) a)
      1 (by simp) (by omega) hts
    constructor
    · simp only [GeneralRateLimiter.run, hfresh, List.countP_cons, hrec.1]
      simp
      omega
    · simp only [GeneralRateLimiter.run, hfresh, hrec.2, Option.some.injEq,
        RateRecord.mk.injEq, eq_self_iff_true, and_true]
  refine ⟨fun ip t₀ ts hts => (hhead ip t₀ ts hts).1, ?_, ?_⟩
  · intro ip t₀ ts t' hts hlen ht'1 ht'2
    have hfull := (hhead ip t₀ ts hts).2
    have hfullc : (GeneralRateLimiter.run maxRequests windowMs ip (fun _ => none)
        (t₀ :: ts)).2 ip = some { count := maxRequests, windowStart := t₀ } := by
      rw [hfull]
      have : min (1 + ts.length) maxRequests = maxRequests := by omega
      rw [this]
    have hstep := rateLimiter_denied maxRequests windowMs _ ip t' maxRequests t₀
      hfullc ht'2 (le_refl _)
    rw [hstep]
  · intro ip m c ws t' ts' hm hw hts'
    have hreset := rateLimiter_reset maxRequests windowMs m ip t' c ws hm hw hmax
    have hrec := rateLimiter_run_window maxRequests windowMs ip t' ts'
      (fun a => if a = ip then some { count := 1, windowStart := t' } else m a)
      1 (by simp) (by omega) hts'
    constructor
    · rw [hreset]
    · simp only [GeneralRateLimiter.run, hreset, List.countP_cons, hrec.1]
      simp
      omega

/-- C5 witness: with limit 2 and a 10 ms window, the calls at 0, 1, 2 from
    empty allow exactly 2; a further call at 3 is denied; and for a stored
    record with window start 0, a call at 11 (window elapsed) is allowed
    and the fresh window again allows exactly 2 of the calls 11, 12, 13. -/
theorem general_rate_limiter_window_spec_witness :
    ((GeneralRateLimiter.run 2 10 ("1.2.3.4") (fun _ => none) (0 :: [1, 2])).1.countP
        (fun r => r.allowed) = min ([1, 2].length + 1) 2) ∧
    ((GeneralRateLimiter.canRequest 2 10
        (GeneralRateLimiter.run 2 10 ("1.2.3.4") (fun _ => none) (0 :: [1])).2
        ("1.2.3.4") 3).1.allowed = false) ∧
    ((GeneralRateLimiter.canRequest 2 10
        (fun a => if a = ("1.2.3.4") then some { count := 2, windowStart := 0 } else none)
        ("1.2.3.4") 11).1.allowed = true ∧
     ((GeneralRateLimiter.run 2 10 ("1.2.3.4")
        (fun a => if a = ("1.2.3.4") then some { count := 2, windowStart := 0 } else none)
        (11 :: [12, 13])).1.countP (fun r => r.allowed) = min ([12, 13].length + 1) 2)) :=
  ⟨(general_rate_limiter_window_spec 2 10 (by omega)).1 ("1.2.3.4") 0 [1, 2] (by simp),
   (general_rate_limiter_window_spec 2 10 (by omega)).2.1 ("1.2.3.4") 0 [1] 3
     (by simp) (by simp) (by omega) (by omega),
   (general_rate_limiter_window_spec 2 10 (by omega)).2.2 ("1.2.3.4")
     (fun a => if a = ("1.2.3.4") then some { count := 2, windowStart := 0 } else none)
     2 0 11 [12, 13] (by simp) (by omega) (by decide)⟩

/-- C9.  A denied call consumes no quota: whenever
    PasswordResetTracker.canRequest, or GeneralRateLimiter.canRequest with
    a limit of at least 1, returns allowed = false, the map after the call
    equals the map before it — no count is consumed, no window start is
    moved, and no record is created for an unseen key. -/
theorem denied_request_preserves_map :
    (∀ (m : ResetMap) (email : String) (now : Nat),
      (PasswordResetTracker.canRequest m email now).1.allowed = false →
      (PasswordResetTracker.canRequest m email now).2 = m) ∧
    (∀ (maxRequests windowMs : Nat) (m : RateMap) (ip : String) (now : Nat),
      1 ≤ maxRequests →
      (GeneralRateLimiter.canRequest maxRequests windowMs m ip now).1.allowed = false →
      (GeneralRateLimiter.canRequest maxRequests windowMs m ip now).2 = m) := by
  constructor
  · intro m email now hfalse
    rcases hm : m email with _ | r
    · rw [resetTracker_fresh m email now hm] at hfalse
      simp at hfalse
    · rcases r with ⟨c, ws⟩
      by_cases hreset : ws + 60 * 60 * 1000 < now
      · rw [resetTracker_reset m email now c ws hm hreset] at hfalse
        simp at hfalse
      · by_cases hc : 3 ≤ c
        · rw [resetTracker_denied m email now c ws hm (by omega) hc]
        · rw [resetTracker_allowed m email now c ws hm (by omega) (by omega)] at hfalse
          simp at hfalse
  · intro maxRequests windowMs m ip now hmax hfalse
    rcases hm : m ip with _ | r
    · rw [rateLimiter_fresh maxRequests windowMs m ip now hm hmax] at hfalse
      simp at hfalse
    · rcases r with ⟨c, ws⟩
      by_cases hreset : ws + windowMs < now
      · rw [rateLimiter_reset maxRequests windowMs m ip now c ws hm hreset hmax] at hfalse
        simp at hfalse
      · by_cases hc : maxRequests ≤ c
        · rw [rateLimiter_denied maxRequests windowMs m ip now c ws hm (by omega) hc]
          funext a
          by_cases ha : a = ip
          · simp [ha, hm]
          · simp [ha]
        · rw [rateLimiter_allowed maxRequests windowMs m ip now c ws hm
            (by omega) (by omega)] at hfalse
          simp at hfalse

/-- C9 witness: a reset tracker at its limit and a rate limiter at its
    limit each deny a request and leave their maps untouched. -/
theorem denied_request_preserves_map_witness :
    ((PasswordResetTracker.canRequest
        (fun e => if e = ("a@b.com") then some { count := 3, windowStart := 0 } else none)
        ("a@b.com") 10).1.allowed = false ∧
     (PasswordResetTracker.canRequest
        (fun e => if e = ("a@b.com") then some { count := 3, windowStart := 0 } else none)
        ("a@b.com") 10).2 =
      (fun e => if e = ("a@b.com") then some { count := 3, windowStart := 0 } else none)) ∧
    ((GeneralRateLimiter.canRequest 1 10
        (fun a => if a = ("9.9.9.9") then some { count := 1, windowStart := 0 } else none)
        ("9.9.9.9") 5).1.allowed = false ∧
     (GeneralRateLimiter.canRequest 1 10
        (fun a => if a = ("9.9.9.9") then some { count := 1, windowStart := 0 } else none)
        ("9.9.9.9") 5).2 =
      (fun a => if a = ("9.9.9.9") then some { count := 1, windowStart := 0 } else none)) :=
  ⟨⟨by decide,
    denied_request_preserves_map.1
      (fun e => if e = ("a@b.com") then some { count := 3, windowStart := 0 } else none)
      ("a@b.com") 10 (by decide)⟩,
   ⟨by decide,
    denied_request_preserves_map.2 1 10
      (fun a => if a = ("9.9.9.9") then some { count := 1, windowStart := 0 } else none)
      ("9.9.9.9") 5 (by omega) (by decide)⟩⟩

/-- C4 counterexample.  An entry recorded with expiresAt = 0 breaks both
    halves of the claim: at now = 0 the entry exists and now ≤ expiresAt,
    yet isBlacklisted returns false (the source's !expiresAt test treats 0
    like a missing entry); at now = 5 the entry exists and has expired,
    yet it is not purged — it is still present after the call. -/
theorem token_blacklist_membership_cex :
    ((fun t => if t = ("tok") then some 0 else none : BlacklistMap) ("tok") = some 0) ∧
    ((TokenBlacklist.isBlacklisted
        (fun t => if t = ("tok") then some 0 else none) ("tok") 0).1 = false) ∧
    ((TokenBlacklist.isBlacklisted
        (fun t => if t = ("tok") then some 0 else none) ("tok") 5).1 = false) ∧
    ((TokenBlacklist.isBlacklisted
        (fun t => if t = ("tok") then some 0 else none) ("tok") 5).2 ("tok") = some 0) := by
  refine ⟨by decide, by decide, by decide, by decide⟩

/-- C4 amended.  isBlacklisted returns true iff an entry exists with a
    nonzero expiresAt and now ≤ expiresAt; an entry with nonzero expiresAt
    that has expired is purged and false is returned; an entry with
    expiresAt = 0 is treated as absent by the source's falsiness test —
    false is returned and the entry is left in place — and a missing entry
    likewise yields false with the map unchanged. -/
theorem token_blacklist_membership_spec (bl : BlacklistMap) (token : String) (now : Nat) :
    ((TokenBlacklist.isBlacklisted bl token now).1 = true ↔
      ∃ e, bl token = some e ∧ e ≠ 0 ∧ now ≤ e) ∧
    (∀ e, bl token = some e → e ≠ 0 → e < now →
      (TokenBlacklist.isBlacklisted bl token now).1 = false ∧
      (TokenBlacklist.isBlacklisted bl token now).2 =
        fun t => if t = token then none else bl t) ∧
    (∀ e, bl token = some e → (e = 0 ∨ now ≤ e) →
      (TokenBlacklist.isBlacklisted bl token now).2 = bl) ∧
    (bl token = none →
      (TokenBlacklist.isBlacklisted bl token now).1 = false ∧
      (TokenBlacklist.isBlacklisted bl token now).2 = bl) := by
  refine ⟨?_, ?_, ?_, ?_⟩
  · constructor
    · intro h
      rcases hbl : bl token with _ | e
      · simp [TokenBlacklist.isBlacklisted, hbl] at h
      · by_cases h0 : e = 0
        · simp [TokenBlacklist.isBlacklisted, hbl, h0] at h
        · by_cases hexp : e < now
          · simp [TokenBlacklist.isBlacklisted, hbl, h0, hexp] at h
          · exact ⟨e, rfl, h0, by omega⟩
    · rintro ⟨e, hbl, h0, hle⟩
      have hexp : ¬ e < now := by omega
      simp [TokenBlacklist.isBlacklisted, hbl, h0, hexp]
  · intro e hbl h0 hexp
    simp [TokenBlacklist.isBlacklisted, hbl, h0, hexp]
  · intro e hbl hcase
    rcases hcase with h0 | hle
    · simp [TokenBlacklist.isBlacklisted, hbl, h0]
    · have hexp : ¬ e < now := by omega
      by_cases h0 : e = 0
      · simp [TokenBlacklist.isBlacklisted, hbl, h0]
      · simp [TokenBlacklist.isBlacklisted, hbl, h0, hexp]
  · intro hbl
    simp [TokenBlacklist.isBlacklisted, hbl]

/-- C4 amended witness: an entry expiring at 100 is blacklisted at 50;
    at 150 it is reported clean and purged. -/
theorem token_blacklist_membership_spec_witness :
    ((TokenBlacklist.isBlacklisted
        (fun t => if t = ("tok") then some 100 else none) ("tok") 50).1 = true) ∧
    ((TokenBlacklist.isBlacklisted
        (fun t => if t = ("tok") then some 100 else none) ("tok") 150).1 = false ∧
     (TokenBlacklist.isBlacklisted
        (fun t => if t = ("tok") then some 100 else none) ("tok") 150).2 =
      fun t => if t = ("tok") then none
        else (fun t => if t = ("tok") then some 100 else none : BlacklistMap) t) :=
  ⟨(token_blacklist_membership_spec
      (fun t => if t = ("tok") then some 100 else none) ("tok") 50).1.2
    ⟨100, by decide, by decide, by decide⟩,
   (token_blacklist_membership_spec
      (fun t => if t = ("tok") then some 100 else none) ("tok") 150).2.1 100
    (by decide) (by decide) (by decide)⟩

/-- C3 counterexample.  A token that is both blacklisted and fails
    signature verification is answered with the blacklist response, not
    the signature-verification response: the blacklist is consulted first,
    so the verdict is not independent of blacklist membership. -/
theorem blacklist_order_cex :
    ((fun t => if t = ("tok") then some 1000 else none : BlacklistMap) ("tok") = some 1000) ∧
    ((Auth.verifyToken (fun t => if t = ("tok") then some 1000 else none) 500
        (some ("Bearer tok")) (fun _ => JwtOutcome.jsonWebTokenError)).1 =
      AuthResult.blacklisted) ∧
    ((Auth.verifyToken (fun t => if t = ("tok") then some 1000 else none) 500
        (some ("Bearer tok")) (fun _ => JwtOutcome.jsonWebTokenError)).1 ≠
      AuthResult.invalidToken) := by
  refine ⟨by decide, by decide, by decide⟩

/-- C3 amended.  On every Bearer request the middleware consults the
    blacklist BEFORE signature verification: a blacklisted token is
    answered with the session-expired (blacklist) response whatever the
    verifier would say, and only a non-blacklisted token that fails
    signature verification receives the invalid-token response. -/
theorem blacklist_checked_before_signature (bl : BlacklistMap) (now : Nat) (h : String)
    (jwtVerify : String → JwtOutcome) (hb : Auth.headerIsBearer h = true) :
    ((TokenBlacklist.isBlacklisted bl (Auth.tokenOf h) now).1 = true →
      (Auth.verifyToken bl now (some h) jwtVerify).1 = AuthResult.blacklisted) ∧
    ((TokenBlacklist.isBlacklisted bl (Auth.tokenOf h) now).1 = false →
      jwtVerify (Auth.tokenOf h) = JwtOutcome.jsonWebTokenError →
      (Auth.verifyToken bl now (some h) jwtVerify).1 = AuthResult.invalidToken) := by
  constructor
  · intro hbl
    simp [Auth.verifyToken, hb, hbl]
  · intro hbl hsig
    simp [Auth.verifyToken, hb, hbl, hsig]

/-- C3 amended witness: an empty blacklist plus a failing verifier gives
    the invalid-token response; the blacklisted case of the counterexample
    input gives the blacklist response. -/
theorem blacklist_checked_before_signature_witness :
    ((Auth.verifyToken (fun _ => none) 500 (some ("Bearer tok"))
        (fun _ => JwtOutcome.jsonWebTokenError)).1 = AuthResult.invalidToken) ∧
    ((Auth.verifyToken (fun t => if t = ("abc") then some 9 else none) 3
        (some ("Bearer abc"))
        (fun _ => JwtOutcome.ok ("u"))).1 = AuthResult.blacklisted) :=
  ⟨(blacklist_checked_before_signature (fun _ => none) 500 ("Bearer tok")
      (fun _ => JwtOutcome.jsonWebTokenError) (by decide)).2 (by decide) rfl,
   (blacklist_checked_before_signature (fun t => if t = ("abc") then some 9 else none) 3
      ("Bearer abc") (fun _ => JwtOutcome.ok ("u")) (by decide)).1 (by decide)⟩

/-- C6.  CSRFProtection.verifyToken fails when no record exists for the
    session key; fails and deletes the record when the stored token is
    older than one hour; otherwise succeeds exactly when the candidate
    equals the stored token.  Consequently a token freshly generated for a
    different key K2 validates against K only if it happens to equal the
    token stored at K. -/
theorem csrf_verify_token_spec (m : CSRFMap) (sessionKey candidate : String) (now : Nat) :
    (m sessionKey = none →
      CSRFProtection.verifyToken m sessionKey candidate now = (false, m)) ∧
    (∀ r, m sessionKey = some r → 60 * 60 * 1000 < now - r.createdAt →
      (CSRFProtection.verifyToken m sessionKey candidate now).1 = false ∧
      (CSRFProtection.verifyToken m sessionKey candidate now).2 sessionKey = none) ∧
    (∀ r, m sessionKey = some r → now - r.createdAt ≤ 60 * 60 * 1000 →
      ((CSRFProtection.verifyToken m sessionKey candidate now).1 = true ↔
        r.token = candidate)) ∧
    (∀ (k₂ t₂ : String) (now₂ : Nat) (r : CSRFRecord), k₂ ≠ sessionKey →
      m sessionKey = some r → now - r.createdAt ≤ 60 * 60 * 1000 →
      ((CSRFProtection.verifyToken
          (CSRFProtection.generateToken m k₂ t₂ now₂).2 sessionKey t₂ now).1 = true ↔
        r.token = t₂)) := by
  refine ⟨?_, ?_, ?_, ?_⟩
  · intro hnone
    simp [CSRFProtection.verifyToken, hnone]
  · intro r hr hexp
    simp [CSRFProtection.verifyToken, hr, hexp]
  · intro r hr hfresh
    have hexp : ¬ (60 * 60 * 1000 < now - r.createdAt) := by omega
    simp [CSRFProtection.verifyToken, hr, hexp]
  · intro k₂ t₂ now₂ r hne hr hfresh
    have hcond : ¬ (sessionKey = k₂) := fun heq => hne heq.symm
    have hsame : (CSRFProtection.generateToken m k₂ t₂ now₂).2 sessionKey = some r := by
      simp [CSRFProtection.generateToken, hcond, hr]
    have hexp : ¬ (60 * 60 * 1000 < now - r.createdAt) := by omega
    simp [CSRFProtection.verifyToken, hsame, hexp]

/-- C6 witness: with "tokA" stored at key "K" at time 0, checked at time
    100: a missing key fails; an expired copy (checked at 3600001 on a
    fresh store) fails and is deleted; the stored token matches itself
    only; and "tokB" generated for "K2" does not validate against "K". -/
theorem csrf_verify_token_spec_witness :
    (((fun s => if s = ("K") then some { token := ("tokA"), createdAt := 0 }
        else none : CSRFMap) ("K") = none →
      CSRFProtection.verifyToken
        (fun s => if s = ("K") then some { token := ("tokA"), createdAt := 0 } else none)
        ("K") ("tokA") 100 =
      (false, fun s => if s = ("K") then some { token := ("tokA"), createdAt := 0 }
        else none)) ∧
     ((CSRFProtection.verifyToken
        (fun s => if s = ("K") then some { token := ("tokA"), createdAt := 0 } else none)
        ("K") ("tokA") 100).1 = true ↔ ("tokA") = ("tokA"))) ∧
    ((CSRFProtection.verifyToken
        (CSRFProtection.generateToken
          (fun s => if s = ("K") then some { token := ("tokA"), createdAt := 0 } else none)
          ("K2") ("tokB") 50).2 ("K") ("tokB") 100).1 = true ↔ ("tokA") = ("tokB")) :=
  ⟨⟨(csrf_verify_token_spec
      (fun s => if s = ("K") then some { token := ("tokA"), createdAt := 0 } else none)
      ("K") ("tokA") 100).1,
    (csrf_verify_token_spec
      (fun s => if s = ("K") then some { token := ("tokA"), createdAt := 0 } else none)
      ("K") ("tokA") 100).2.2.1 { token := ("tokA"), createdAt := 0 }
      (by decide) (by decide)⟩,
   (csrf_verify_token_spec
      (fun s => if s = ("K") then some { token := ("tokA"), createdAt := 0 } else none)
      ("K") ("tokB") 100).2.2.2 ("K2") ("tokB") 50 { token := ("tokA"), createdAt := 0 }
      (by decide) (by decide) (by decide)⟩

end PierBackend
